import Mathlib

/-!
Formal model of the semantic-retrieval chatbot backend (src/backend/app.py).

Vectors of floating-point numbers are modelled as lists of real numbers.
`cosine_similarity` follows sklearn.metrics.pairwise.cosine_similarity, which
l2-normalizes each row and replaces a zero norm by 1 before dividing, so a
zero-magnitude vector yields similarity 0.0 rather than NaN.  `argmax` follows
numpy.argmax, which returns the first index attaining the maximum.  A raised
exception (np.argmax on an empty sequence) is modelled as `Option.none`.
-/

namespace MiniChatbot

noncomputable section

/-- An embedding vector: a finite sequence of floating-point numbers,
modelled over the reals. -/
abbrev Vec := List ℝ

/-- Componentwise dot product of two vectors (trailing components of the
longer vector are ignored, as with numpy broadcasting of equal-length rows;
all vectors compared by the program have equal dimension). -/
def dot : Vec → Vec → ℝ
  | [], _ => 0
  | _, [] => 0
  | x :: xs, y :: ys => x * y + dot xs ys

/-- Euclidean (l2) norm of a vector. -/
def l2norm (v : Vec) : ℝ := Real.sqrt (dot v v)

/-- The guarded norm used by sklearn normalize: a zero norm is replaced by 1
so that normalizing a zero vector leaves it zero instead of dividing by 0. -/
def safeNorm (v : Vec) : ℝ := if l2norm v = 0 then 1 else l2norm v

/-- Cosine similarity as computed by sklearn cosine_similarity:
dot product of the two l2-normalized rows, with zero norms guarded to 1. -/
def cosine_similarity (a b : Vec) : ℝ := dot a b / (safeNorm a * safeNorm b)

/-- numpy.argmax over a list: index of the first occurrence of the maximum
value.  On the empty list numpy raises; callers of this model guard with
`isEmpty`, and the value 0 returned here for `[]` is never used. -/
def argmax : List ℝ → ℕ
  | [] => 0
  | [_] => 0
  | x :: y :: t =>
      if (y :: t).getD (argmax (y :: t)) 0 ≤ x then 0
      else argmax (y :: t) + 1

/-- A knowledge-base entry: a question/answer pair (app.py lines 31-72). -/
structure KBEntry where
  question : String
  answer : String
deriving DecidableEq

/-- The hardcoded 10-entry knowledge base built by load_knowledge_base. -/
def knowledge_base : List KBEntry :=
  [⟨"How do I prioritize tasks effectively?",
    "Use the Eisenhower Matrix: categorize tasks by urgency and importance. Focus on important-urgent tasks first, schedule important-not urgent tasks, delegate urgent-not important tasks, and eliminate neither urgent nor important tasks."⟩,
   ⟨"What are the best practices for remote work productivity?",
    "Set up a dedicated workspace, maintain regular hours, take frequent breaks, communicate clearly with your team, use productivity tools like task managers, and establish boundaries between work and personal life."⟩,
   ⟨"How do I manage time better during busy periods?",
    "Use time-blocking to schedule focused work sessions, batch similar tasks together, minimize multitasking, set realistic deadlines, and regularly review and adjust your schedule based on what works best."⟩,
   ⟨"What should I consider when seeking startup funding?",
    "Prepare a solid business plan, know your market and competition, have clear financial projections, build a strong team, create a minimum viable product, and research different funding options like angel investors, VCs, or crowdfunding."⟩,
   ⟨"How do I handle work-life balance?",
    "Set clear boundaries between work and personal time, learn to say no to non-essential commitments, prioritize self-care and health, communicate your limits to colleagues, and regularly assess and adjust your workload."⟩,
   ⟨"What are effective communication strategies in the workplace?",
    "Practice active listening, be clear and concise in your messaging, choose the right communication channel for each situation, provide regular updates on projects, and ask clarifying questions when needed."⟩,
   ⟨"How do I stay motivated during challenging projects?",
    "Break large projects into smaller milestones, celebrate small wins, maintain a growth mindset, seek feedback and support from colleagues, and remind yourself of the project\x27s purpose and impact."⟩,
   ⟨"What skills should I develop for career advancement?",
    "Focus on both technical skills relevant to your field and soft skills like leadership, communication, problem-solving, and adaptability. Stay updated with industry trends and consider pursuing relevant certifications."⟩,
   ⟨"How do I build a professional network effectively?",
    "Attend industry events and conferences, engage on professional social media platforms, offer help and value to others, maintain existing relationships, and follow up consistently with new connections."⟩,
   ⟨"What are the key elements of a successful presentation?",
    "Know your audience and tailor your content accordingly, have a clear structure with opening, body, and conclusion, use visual aids effectively, practice your delivery, engage with your audience, and prepare for questions."⟩]

/-- The fixed fallback answer returned when no match clears the threshold
(app.py line 98). -/
def fallback_answer : String :=
  "I\x27m sorry, I don\x27t have information about that specific topic. Could you try rephrasing your question or ask about productivity, remote work, task prioritization, startup funding, or professional development?"

/-- The embedding table built at startup (app.py lines 74-77): the embedder
applied to every knowledge-base question, in order. -/
def knowledge_embeddings (encode : String → Vec) : List Vec :=
  (knowledge_base.map (fun item => item.question)).map encode

/-- The match step of find_best_answer (app.py lines 87-92): cosine
similarities of the query against every table row, then np.argmax and the
similarity at that index.  `none` models the ValueError numpy raises when
argmax is taken over an empty sequence. -/
def matchQuery (user_embedding : Vec) (table : List Vec) : Option (ℕ × ℝ) :=
  if table.isEmpty then none
  else
    let similarities := table.map (fun v => cosine_similarity user_embedding v)
    some (argmax similarities, similarities.getD (argmax similarities) 0)

/-- The threshold / fallback policy of find_best_answer (app.py lines 94-98):
return the matched answer with its score when confidence > 0.3, otherwise the
fixed fallback string with confidence 0.0.  The comparison is strict. -/
def resolveMatch (kb : List KBEntry) (best_match_idx : ℕ) (confidence : ℝ) :
    String × ℝ :=
  if 0.3 < confidence then ((kb.getD best_match_idx ⟨"", ""⟩).answer, confidence)
  else (fallback_answer, 0)

/-- find_best_answer (app.py lines 80-98): encode the user question, match it
against the embedding table, apply the threshold policy.  `none` propagates
the exception raised on an empty table. -/
def find_best_answer (encode : String → Vec) (kb : List KBEntry)
    (table : List Vec) (user_question : String) : Option (String × ℝ) :=
  let user_embedding := encode user_question
  match matchQuery user_embedding table with
  | none => none
  | some (best_match_idx, confidence) =>
      some (resolveMatch kb best_match_idx confidence)

/-- A chat-history record (app.py lines 115-119). -/
structure HistoryRecord where
  timestamp : String
  question : String
  answer : String
deriving DecidableEq

/-- save_chat_history (app.py lines 100-128) acting on the stored history
list: append the new record, then keep only the last 50 entries
(Python history[-50:], i.e. drop all but the final 50). -/
def save_chat_history (history : List HistoryRecord) (newEntry : HistoryRecord) :
    List HistoryRecord :=
  let appended := history ++ [newEntry]
  appended.drop (appended.length - 50)

/-- The global retrieval state built at startup: the knowledge base and its
embedding table (app.py lines 14-17). -/
structure EngineState where
  knowledge_base : List KBEntry
  knowledge_embeddings : List Vec

/-- find_best_answer viewed as a state transformer over the global retrieval
state: the function only reads the globals (it declares them `global` but
never assigns them), so the output state is the input state. -/
def find_best_answer_st (encode : String → Vec) (s : EngineState) (q : String) :
    Option (String × ℝ) × EngineState :=
  (find_best_answer encode s.knowledge_base s.knowledge_embeddings q, s)

/-- Run a sequence of queries, threading the retrieval state. -/
def runQueries (encode : String → Vec) (s : EngineState) :
    List String → EngineState
  | [] => s
  | q :: qs => runQueries encode (find_best_answer_st encode s q).2 qs

/-- The /ask endpoint handler (app.py lines 130-174).  The parsed request
body is `none` for a missing/falsy body, `some none` for a body without a
question field, and `some (some raw)` for a question string.  The result is
(HTTP status, answer, confidence) together with the chat-history list after
the call.  A 500 arises only when find_best_answer raises. -/
def ask_question (encode : String → Vec) (s : EngineState)
    (history : List HistoryRecord) (now : String)
    (data : Option (Option String)) : (ℕ × String × ℝ) × List HistoryRecord :=
  match data with
  | none => ((400, "", 0), history)
  | some none => ((400, "", 0), history)
  | some (some raw) =>
      let user_question := raw.trim
      if user_question = "" then ((400, "", 0), history)
      else
        match find_best_answer encode s.knowledge_base s.knowledge_embeddings
            user_question with
        | none =>
            ((500, "Sorry, there was an error processing your question. Please try again.", 0),
             history)
        | some (answer, confidence) =>
            ((200, answer, confidence),
             save_chat_history history ⟨now, user_question, answer⟩)

/-! Supporting lemmas about the vector arithmetic. -/

theorem dot_self_nonneg (v : Vec) : 0 ≤ dot v v := by
  induction v with
  | nil => simp [dot]
  | cons x xs ih => simp only [dot]; nlinarith [mul_self_nonneg x]

theorem dot_eq_sum (a : Vec) : ∀ (b : Vec) (n : ℕ), a.length ≤ n → b.length ≤ n →
    dot a b = ∑ i ∈ Finset.range n, a.getD i 0 * b.getD i 0 := by
  induction a with
  | nil =>
      intro b n _ _
      simp [dot, List.getD_nil]
  | cons x xs ih =>
      intro b n ha hb
      cases b with
      | nil => simp [dot, List.getD_nil]
      | cons y ys =>
          cases n with
          | zero => simp at ha
          | succ m =>
              rw [Finset.sum_range_succ']
              simp only [List.getD_cons_succ, List.getD_cons_zero]
              have hxs : xs.length ≤ m := by simpa using ha
              have hys : ys.length ≤ m := by simpa using hb
              rw [dot, ih ys m hxs hys]
              ring

/-- Cauchy-Schwarz for the list dot product. -/
theorem dot_sq_le (a b : Vec) : dot a b ^ 2 ≤ dot a a * dot b b := by
  have hab := dot_eq_sum a b (max a.length b.length) (le_max_left _ _) (le_max_right _ _)
  have haa := dot_eq_sum a a (max a.length b.length) (le_max_left _ _) (le_max_left _ _)
  have hbb := dot_eq_sum b b (max a.length b.length) (le_max_right _ _) (le_max_right _ _)
  rw [hab, haa, hbb]
  have h := Finset.sum_mul_sq_le_sq_mul_sq (Finset.range (max a.length b.length))
      (fun i => a.getD i 0) (fun i => b.getD i 0)
  simpa only [pow_two] using h

theorem dot_eq_zero_left {a : Vec} (b : Vec) (h : dot a a = 0) : dot a b = 0 := by
  have hcs := dot_sq_le a b
  rw [h, zero_mul] at hcs
  have h2 : dot a b ^ 2 = 0 := le_antisymm hcs (sq_nonneg _)
  exact pow_eq_zero_iff two_ne_zero |>.mp h2

theorem dot_eq_zero_right (a : Vec) {b : Vec} (h : dot b b = 0) : dot a b = 0 := by
  have hcs := dot_sq_le a b
  rw [h, mul_zero] at hcs
  have h2 : dot a b ^ 2 = 0 := le_antisymm hcs (sq_nonneg _)
  exact pow_eq_zero_iff two_ne_zero |>.mp h2

theorem l2norm_nonneg (v : Vec) : 0 ≤ l2norm v := Real.sqrt_nonneg _

theorem l2norm_eq_zero_iff (v : Vec) : l2norm v = 0 ↔ dot v v = 0 :=
  Real.sqrt_eq_zero (dot_self_nonneg v)

theorem mul_self_l2norm (v : Vec) : l2norm v * l2norm v = dot v v :=
  Real.mul_self_sqrt (dot_self_nonneg v)

theorem safeNorm_pos (v : Vec) : 0 < safeNorm v := by
  unfold safeNorm
  split
  · norm_num
  · rename_i h
    exact lt_of_le_of_ne (l2norm_nonneg v) (Ne.symm h)

theorem cosine_similarity_self {v : Vec} (h : dot v v ≠ 0) :
    cosine_similarity v v = 1 := by
  have hl : l2norm v ≠ 0 := fun hc => h ((l2norm_eq_zero_iff v).mp hc)
  unfold cosine_similarity safeNorm
  rw [if_neg hl, mul_self_l2norm]
  exact div_self h

theorem cosine_similarity_zero_left {a : Vec} (b : Vec) (h : dot a a = 0) :
    cosine_similarity a b = 0 := by
  unfold cosine_similarity
  rw [dot_eq_zero_left b h, zero_div]

theorem cosine_similarity_zero_right (a : Vec) {b : Vec} (h : dot b b = 0) :
    cosine_similarity a b = 0 := by
  unfold cosine_similarity
  rw [dot_eq_zero_right a h, zero_div]

theorem cosine_similarity_le_one (a b : Vec) : cosine_similarity a b ≤ 1 := by
  by_cases ha : dot a a = 0
  · rw [cosine_similarity_zero_left b ha]; norm_num
  by_cases hb : dot b b = 0
  · rw [cosine_similarity_zero_right a hb]; norm_num
  have hla : l2norm a ≠ 0 := fun hc => ha ((l2norm_eq_zero_iff a).mp hc)
  have hlb : l2norm b ≠ 0 := fun hc => hb ((l2norm_eq_zero_iff b).mp hc)
  have hpa : 0 < l2norm a := lt_of_le_of_ne (l2norm_nonneg a) (Ne.symm hla)
  have hpb : 0 < l2norm b := lt_of_le_of_ne (l2norm_nonneg b) (Ne.symm hlb)
  unfold cosine_similarity safeNorm
  rw [if_neg hla, if_neg hlb, div_le_one (mul_pos hpa hpb)]
  have h1 : dot a b ≤ |dot a b| := le_abs_self _
  have h2 : |dot a b| = Real.sqrt (dot a b ^ 2) := (Real.sqrt_sq_eq_abs _).symm
  have h3 : Real.sqrt (dot a b ^ 2) ≤ Real.sqrt (dot a a * dot b b) :=
    Real.sqrt_le_sqrt (dot_sq_le a b)
  have h4 : Real.sqrt (dot a a * dot b b) = l2norm a * l2norm b :=
    Real.sqrt_mul (dot_self_nonneg a) _
  linarith

/-! Supporting lemmas about numpy argmax (first index of the maximum). -/

theorem argmax_lt_length (xs : List ℝ) : ∀ x : ℝ, argmax (x :: xs) < (x :: xs).length := by
  induction xs with
  | nil => intro x; simp [argmax]
  | cons y t ih =>
      intro x
      simp only [argmax]
      by_cases h : (y :: t).getD (argmax (y :: t)) 0 ≤ x
      · rw [if_pos h]; simp
      · rw [if_neg h]
        have := ih y
        simp only [List.length_cons] at this ⊢
        omega

theorem getD_le_argmax (xs : List ℝ) : ∀ (x : ℝ) (j : ℕ), j < (x :: xs).length →
    (x :: xs).getD j 0 ≤ (x :: xs).getD (argmax (x :: xs)) 0 := by
  induction xs with
  | nil =>
      intro x j hj
      have hj0 : j = 0 := by simpa [Nat.lt_one_iff] using hj
      subst hj0
      simp [argmax]
  | cons y t ih =>
      intro x j hj
      simp only [argmax]
      by_cases h : (y :: t).getD (argmax (y :: t)) 0 ≤ x
      · rw [if_pos h]
        cases j with
        | zero => simp
        | succ k =>
            have hk : k < (y :: t).length := by
              simp only [List.length_cons] at hj ⊢; omega
            have := ih y k hk
            simp only [List.getD_cons_succ, List.getD_cons_zero]
            linarith
      · rw [if_neg h]
        push_neg at h
        cases j with
        | zero =>
            simp only [List.getD_cons_zero, List.getD_cons_succ]
            linarith
        | succ k =>
            have hk : k < (y :: t).length := by
              simp only [List.length_cons] at hj ⊢; omega
            have := ih y k hk
            simpa only [List.getD_cons_succ] using this

theorem getD_lt_of_lt_argmax (xs : List ℝ) : ∀ (x : ℝ) (j : ℕ), j < argmax (x :: xs) →
    (x :: xs).getD j 0 < (x :: xs).getD (argmax (x :: xs)) 0 := by
  induction xs with
  | nil => intro x j hj; simp [argmax] at hj
  | cons y t ih =>
      intro x j hj
      simp only [argmax] at hj ⊢
      by_cases h : (y :: t).getD (argmax (y :: t)) 0 ≤ x
      · rw [if_pos h] at hj; omega
      · rw [if_neg h] at hj ⊢
        push_neg at h
        cases j with
        | zero => simpa only [List.getD_cons_zero, List.getD_cons_succ] using h
        | succ k =>
            have hk : k < argmax (y :: t) := by omega
            have := ih y k hk
            simpa only [List.getD_cons_succ] using this

/-- argmax is the unique index carrying the maximum value such that all
earlier values are strictly smaller. -/
theorem argmax_eq_of_first_max (l : List ℝ) (i : ℕ) (hi : i < l.length)
    (hmax : ∀ j, j < l.length → l.getD j 0 ≤ l.getD i 0)
    (hfirst : ∀ j, j < i → l.getD j 0 < l.getD i 0) : argmax l = i := by
  cases l with
  | nil => simp at hi
  | cons x xs =>
      rcases lt_trichotomy (argmax (x :: xs)) i with h | h | h
      · have h1 := hfirst _ h
        have h2 := getD_le_argmax xs x i hi
        linarith
      · exact h
      · have h1 := getD_lt_of_lt_argmax xs x i h
        have h2 := hmax _ (argmax_lt_length xs x)
        linarith

/-! Bridge lemmas connecting the similarity list to the embedding table. -/

theorem getD_map_of_lt {α β : Type*} (f : α → β) (l : List α) (j : ℕ)
    (hj : j < l.length) (d : α) (d' : β) : (l.map f).getD j d' = f (l.getD j d) := by
  rw [List.getD_eq_getElem?_getD, List.getD_eq_getElem?_getD, List.getElem?_map,
      List.getElem?_eq_getElem hj]
  simp

theorem getD_zero_of_all_zero (l : List ℝ) (h : ∀ x ∈ l, x = 0) :
    ∀ k : ℕ, l.getD k 0 = 0 := by
  induction l with
  | nil => intro k; simp [List.getD_nil]
  | cons x xs ih =>
      intro k
      cases k with
      | zero => simpa using h x (by simp)
      | succ m =>
          rw [List.getD_cons_succ]
          exact ih (fun y hy => h y (by simp [hy])) m

theorem matchQuery_eq (user_embedding : Vec) (table : List Vec) (h : table ≠ []) :
    matchQuery user_embedding table
      = some (argmax (table.map (fun v => cosine_similarity user_embedding v)),
          (table.map (fun v => cosine_similarity user_embedding v)).getD
            (argmax (table.map (fun v => cosine_similarity user_embedding v))) 0) := by
  unfold matchQuery
  rw [if_neg (by simpa [List.isEmpty_iff] using h)]

theorem matchQuery_nil (user_embedding : Vec) :
    matchQuery user_embedding [] = none := rfl

theorem argmax_spec (l : List ℝ) (h : l ≠ []) :
    argmax l < l.length ∧ (∀ j, j < l.length → l.getD j 0 ≤ l.getD (argmax l) 0) ∧
      (∀ j, j < argmax l → l.getD j 0 < l.getD (argmax l) 0) := by
  obtain ⟨x, xs, rfl⟩ := List.exists_cons_of_ne_nil h
  exact ⟨argmax_lt_length xs x, fun j hj => getD_le_argmax xs x j hj,
    fun j hj => getD_lt_of_lt_argmax xs x j hj⟩

theorem knowledge_base_length : knowledge_base.length = 10 := rfl

theorem knowledge_embeddings_length (encode : String → Vec) :
    (knowledge_embeddings encode).length = knowledge_base.length := by
  simp [knowledge_embeddings]

theorem knowledge_embeddings_ne_nil (encode : String → Vec) :
    knowledge_embeddings encode ≠ [] := by
  intro h
  have := knowledge_embeddings_length encode
  rw [h, knowledge_base_length] at this
  simp at this

theorem knowledge_embeddings_getD (encode : String → Vec) (i : ℕ)
    (hi : i < knowledge_base.length) :
    (knowledge_embeddings encode).getD i []
      = encode ((knowledge_base.getD i ⟨"", ""⟩).question) := by
  unfold knowledge_embeddings
  rw [getD_map_of_lt encode _ i (by simpa using hi) ""]
  rw [getD_map_of_lt (fun item => item.question) _ i hi ⟨"", ""⟩]

theorem find_best_answer_eq_of_ne_nil (encode : String → Vec) (kb : List KBEntry)
    (table : List Vec) (q : String) (h : table ≠ []) :
    find_best_answer encode kb table q
      = some (resolveMatch kb
          (argmax (table.map (fun v => cosine_similarity (encode q) v)))
          ((table.map (fun v => cosine_similarity (encode q) v)).getD
            (argmax (table.map (fun v => cosine_similarity (encode q) v))) 0)) := by
  simp only [find_best_answer, matchQuery_eq _ _ h]

/-- Core self-match fact: when the embedding of the i-th stored question is
nonzero and no earlier table row already attains similarity 1 against it,
find_best_answer on that exact question returns the i-th answer with
confidence 1. -/
theorem find_best_answer_self_eq (encode : String → Vec) (i : ℕ)
    (hi : i < knowledge_base.length)
    (hnz : dot (encode ((knowledge_base.getD i ⟨"", ""⟩).question))
             (encode ((knowledge_base.getD i ⟨"", ""⟩).question)) ≠ 0)
    (hfirst : ∀ j, j < i →
      cosine_similarity (encode ((knowledge_base.getD i ⟨"", ""⟩).question))
        ((knowledge_embeddings encode).getD j []) < 1) :
    find_best_answer encode knowledge_base (knowledge_embeddings encode)
        ((knowledge_base.getD i ⟨"", ""⟩).question)
      = some ((knowledge_base.getD i ⟨"", ""⟩).answer, 1) := by
  have hlen := knowledge_embeddings_length encode
  have htne := knowledge_embeddings_ne_nil encode
  have hti : i < (knowledge_embeddings encode).length := by omega
  have hsimlen : ((knowledge_embeddings encode).map
      (fun v => cosine_similarity
        (encode ((knowledge_base.getD i ⟨"", ""⟩).question)) v)).length
      = (knowledge_embeddings encode).length := by
    rw [List.length_map]
  have hsimi : ((knowledge_embeddings encode).map
      (fun v => cosine_similarity
        (encode ((knowledge_base.getD i ⟨"", ""⟩).question)) v)).getD i 0 = 1 := by
    rw [getD_map_of_lt _ _ i hti [], knowledge_embeddings_getD encode i hi]
    exact cosine_similarity_self hnz
  have hmax : ∀ j, j < ((knowledge_embeddings encode).map
      (fun v => cosine_similarity
        (encode ((knowledge_base.getD i ⟨"", ""⟩).question)) v)).length →
      ((knowledge_embeddings encode).map
        (fun v => cosine_similarity
          (encode ((knowledge_base.getD i ⟨"", ""⟩).question)) v)).getD j 0
        ≤ ((knowledge_embeddings encode).map
        (fun v => cosine_similarity
          (encode ((knowledge_base.getD i ⟨"", ""⟩).question)) v)).getD i 0 := by
    intro j hj
    rw [hsimi, getD_map_of_lt _ _ j (by omega) []]
    exact cosine_similarity_le_one _ _
  have hfirst' : ∀ j, j < i →
      ((knowledge_embeddings encode).map
        (fun v => cosine_similarity
          (encode ((knowledge_base.getD i ⟨"", ""⟩).question)) v)).getD j 0
        < ((knowledge_embeddings encode).map
        (fun v => cosine_similarity
          (encode ((knowledge_base.getD i ⟨"", ""⟩).question)) v)).getD i 0 := by
    intro j hj
    rw [hsimi, getD_map_of_lt _ _ j (by omega) []]
    exact hfirst j hj
  have hargmax : argmax ((knowledge_embeddings encode).map
      (fun v => cosine_similarity
        (encode ((knowledge_base.getD i ⟨"", ""⟩).question)) v)) = i :=
    argmax_eq_of_first_max _ i (by omega) hmax hfirst'
  rw [find_best_answer_eq_of_ne_nil encode knowledge_base
      (knowledge_embeddings encode) _ htne, hargmax, hsimi]
  unfold resolveMatch
  rw [if_pos (by norm_num : (0.3 : ℝ) < 1)]

/-- Core degenerate-query fact: a zero-magnitude query vector makes every
similarity 0, so find_best_answer returns the fallback with confidence 0. -/
theorem find_best_answer_zero_query (encode : String → Vec) (q : String)
    (h : dot (encode q) (encode q) = 0) :
    find_best_answer encode knowledge_base (knowledge_embeddings encode) q
      = some (fallback_answer, 0) := by
  have hall : ∀ x ∈ (knowledge_embeddings encode).map
      (fun v => cosine_similarity (encode q) v), x = 0 := by
    intro x hx
    obtain ⟨v, _, rfl⟩ := List.mem_map.mp hx
    exact cosine_similarity_zero_left v h
  rw [find_best_answer_eq_of_ne_nil encode knowledge_base
      (knowledge_embeddings encode) q (knowledge_embeddings_ne_nil encode),
    getD_zero_of_all_zero _ hall]
  unfold resolveMatch
  rw [if_neg (by norm_num : ¬ (0.3 : ℝ) < 0)]

/-- None of the ten stored answers equals the fallback string. -/
theorem answers_ne_fallback : ∀ i, i < knowledge_base.length →
    (knowledge_base.getD i ⟨"", ""⟩).answer ≠ fallback_answer := by decide

/-! Claim theorems. -/

/-- C1: for every valid entry index, the resolve/threshold policy of
find_best_answer (app.py lines 94-98) returns the matched entry's answer
together with its similarity score if and only if the score is strictly
greater than 0.3, and any score at most 0.3 (including exactly 0.3) yields
the fixed fallback string with confidence 0.0. -/
theorem C1_resolve_threshold (i : ℕ) (hi : i < knowledge_base.length) (score : ℝ) :
    (resolveMatch knowledge_base i score
        = ((knowledge_base.getD i ⟨"", ""⟩).answer, score) ↔ 0.3 < score)
    ∧ (score ≤ 0.3 → resolveMatch knowledge_base i score = (fallback_answer, 0)) := by
  refine ⟨⟨?_, ?_⟩, ?_⟩
  · intro h
    by_contra hs
    push_neg at hs
    unfold resolveMatch at h
    rw [if_neg (not_lt.mpr hs)] at h
    exact answers_ne_fallback i hi (congrArg Prod.fst h).symm
  · intro hs
    unfold resolveMatch
    rw [if_pos hs]
  · intro hs
    unfold resolveMatch
    rw [if_neg (not_lt.mpr hs)]

/-- Witness for C1 at entry index 0 and the boundary score 0.3. -/
theorem C1_resolve_threshold_witness :
    0 < knowledge_base.length ∧
    ((resolveMatch knowledge_base 0 0.3
        = ((knowledge_base.getD 0 ⟨"", ""⟩).answer, 0.3) ↔ (0.3 : ℝ) < 0.3)
     ∧ ((0.3 : ℝ) ≤ 0.3 →
        resolveMatch knowledge_base 0 0.3 = (fallback_answer, 0))) :=
  ⟨by norm_num [knowledge_base_length],
   C1_resolve_threshold 0 (by norm_num [knowledge_base_length]) 0.3⟩

/-- C2 counterexample: two deterministic embedders refute the claim as
stated.  The constant-zero embedder makes entry 0's own question resolve to
the fallback (the guarded self-similarity of a zero vector is 0, not 1), and
the constant-[1] embedder makes entry 1's own question resolve to entry 0's
answer, because the lower-indexed entry with the same embedding direction
wins the argmax tie-break. -/
theorem C2_self_match_counterexample :
    find_best_answer (fun _ => ([0] : Vec)) knowledge_base
        (knowledge_embeddings (fun _ => ([0] : Vec)))
        ((knowledge_base.getD 0 ⟨"", ""⟩).question)
      ≠ some ((knowledge_base.getD 0 ⟨"", ""⟩).answer, 1)
    ∧ find_best_answer (fun _ => ([1] : Vec)) knowledge_base
        (knowledge_embeddings (fun _ => ([1] : Vec)))
        ((knowledge_base.getD 1 ⟨"", ""⟩).question)
      = some ((knowledge_base.getD 0 ⟨"", ""⟩).answer, 1)
    ∧ (knowledge_base.getD 0 ⟨"", ""⟩).answer
        ≠ (knowledge_base.getD 1 ⟨"", ""⟩).answer := by
  refine ⟨?_, ?_, by decide⟩
  · rw [find_best_answer_zero_query _ _ (by norm_num [dot])]
    intro h
    simp only [Option.some.injEq, Prod.mk.injEq] at h
    exact absurd h.2 (by norm_num)
  · exact find_best_answer_self_eq (fun _ => ([1] : Vec)) 0
      (by norm_num [knowledge_base_length]) (by norm_num [dot])
      (fun j hj => absurd hj (Nat.not_lt_zero j))

/-- C2 (amended): for every deterministic embedder and entry index i, if the
embedding of the stored question is nonzero and no lower-indexed table row
already attains cosine similarity 1 against it, then resolving that exact
question returns the entry's own answer with confidence 1. -/
theorem C2_self_match (encode : String → Vec) (i : ℕ)
    (hi : i < knowledge_base.length)
    (hnz : dot (encode ((knowledge_base.getD i ⟨"", ""⟩).question))
             (encode ((knowledge_base.getD i ⟨"", ""⟩).question)) ≠ 0)
    (hfirst : ∀ j, j < i →
      cosine_similarity (encode ((knowledge_base.getD i ⟨"", ""⟩).question))
        ((knowledge_embeddings encode).getD j []) < 1) :
    find_best_answer encode knowledge_base (knowledge_embeddings encode)
        ((knowledge_base.getD i ⟨"", ""⟩).question)
      = some ((knowledge_base.getD i ⟨"", ""⟩).answer, 1) :=
  find_best_answer_self_eq encode i hi hnz hfirst

/-- Witness for C2 at entry 0 with the constant unit embedder. -/
theorem C2_self_match_witness :
    (0 < knowledge_base.length ∧ dot ([1] : Vec) [1] ≠ 0) ∧
    find_best_answer (fun _ => ([1] : Vec)) knowledge_base
        (knowledge_embeddings (fun _ => ([1] : Vec)))
        ((knowledge_base.getD 0 ⟨"", ""⟩).question)
      = some ((knowledge_base.getD 0 ⟨"", ""⟩).answer, 1) :=
  ⟨⟨by norm_num [knowledge_base_length], by norm_num [dot]⟩,
   C2_self_match (fun _ => ([1] : Vec)) 0 (by norm_num [knowledge_base_length])
     (by norm_num [dot]) (fun j hj => absurd hj (Nat.not_lt_zero j))⟩

/-- C3: on every non-empty embedding table, the match step returns the index
of an entry of maximal cosine similarity together with that similarity, and
among all indices attaining the maximum it returns the lowest one.  Being a
pure function of its arguments, the selection is deterministic. -/
theorem C3_match_first_max (queryVec : Vec) (table : List Vec) (h : table ≠ []) :
    ∃ i score, matchQuery queryVec table = some (i, score) ∧ i < table.length ∧
      score = cosine_similarity queryVec (table.getD i []) ∧
      (∀ j, j < table.length →
        cosine_similarity queryVec (table.getD j []) ≤ score) ∧
      (∀ j, j < table.length →
        cosine_similarity queryVec (table.getD j []) = score → i ≤ j) := by
  obtain ⟨hlt, hmax, hfirst⟩ :=
    argmax_spec (table.map (fun v => cosine_similarity queryVec v))
      (fun hc => h (by simpa using hc))
  rw [List.length_map] at hlt
  refine ⟨argmax (table.map (fun v => cosine_similarity queryVec v)),
    (table.map (fun v => cosine_similarity queryVec v)).getD
      (argmax (table.map (fun v => cosine_similarity queryVec v))) 0,
    matchQuery_eq queryVec table h, hlt, getD_map_of_lt _ _ _ hlt [] 0,
    ?_, ?_⟩
  · intro j hj
    have hm := hmax j (by rw [List.length_map]; exact hj)
    rw [getD_map_of_lt _ _ j hj []] at hm
    exact hm
  · intro j hj heq
    by_contra hij
    push_neg at hij
    have hlt2 := hfirst j hij
    rw [getD_map_of_lt _ _ j hj [], heq] at hlt2
    exact lt_irrefl _ hlt2

/-- Witness for C3 on a concrete one-row table. -/
theorem C3_match_first_max_witness :
    (([[(1 : ℝ)]] : List Vec) ≠ []) ∧
    ∃ i score, matchQuery [(1 : ℝ)] [[(1 : ℝ)]] = some (i, score) ∧
      i < ([[(1 : ℝ)]] : List Vec).length ∧
      score = cosine_similarity [(1 : ℝ)] (([[(1 : ℝ)]] : List Vec).getD i []) ∧
      (∀ j, j < ([[(1 : ℝ)]] : List Vec).length →
        cosine_similarity [(1 : ℝ)] (([[(1 : ℝ)]] : List Vec).getD j []) ≤ score) ∧
      (∀ j, j < ([[(1 : ℝ)]] : List Vec).length →
        cosine_similarity [(1 : ℝ)] (([[(1 : ℝ)]] : List Vec).getD j []) = score →
          i ≤ j) :=
  ⟨by simp, C3_match_first_max [(1 : ℝ)] [[(1 : ℝ)]] (by simp)⟩

/-- C4: a zero-magnitude query vector yields similarity 0.0 (not NaN)
against every row — likewise any zero-magnitude stored vector — so the query
resolves to the fallback with confidence 0.0 instead of crashing or
propagating an undefined value. -/
theorem C4_zero_vector_safety (encode : String → Vec) (q : String)
    (h : dot (encode q) (encode q) = 0) :
    (∀ v, cosine_similarity (encode q) v = 0) ∧
    (∀ u w, dot w w = 0 → cosine_similarity u w = 0) ∧
    find_best_answer encode knowledge_base (knowledge_embeddings encode) q
      = some (fallback_answer, 0) :=
  ⟨fun v => cosine_similarity_zero_left v h,
   fun u _ hw => cosine_similarity_zero_right u hw,
   find_best_answer_zero_query encode q h⟩

/-- Witness for C4 with the constant zero embedder. -/
theorem C4_zero_vector_safety_witness :
    (dot ([(0 : ℝ)] : Vec) [(0 : ℝ)] = 0) ∧
    ((∀ v, cosine_similarity ([(0 : ℝ)] : Vec) v = 0) ∧
     (∀ u w, dot w w = 0 → cosine_similarity u w = 0) ∧
     find_best_answer (fun _ => ([(0 : ℝ)] : Vec)) knowledge_base
        (knowledge_embeddings (fun _ => ([(0 : ℝ)] : Vec)))
        "What is the capital of France?"
      = some (fallback_answer, 0)) :=
  ⟨by norm_num [dot],
   C4_zero_vector_safety (fun _ => ([(0 : ℝ)] : Vec))
     "What is the capital of France?" (by norm_num [dot])⟩

/-- C5: once the model and the 10-entry knowledge base are built, query
resolution is total: every input question yields some result, and that
result is either a stored answer with confidence strictly above 0.3 or the
fallback answer with confidence 0.0. -/
theorem C5_resolution_total (encode : String → Vec) (q : String) :
    ∃ ans conf,
      find_best_answer encode knowledge_base (knowledge_embeddings encode) q
        = some (ans, conf) ∧
      ((0.3 < conf ∧ ∃ i, i < knowledge_base.length ∧
          ans = (knowledge_base.getD i ⟨"", ""⟩).answer)
       ∨ (ans = fallback_answer ∧ conf = 0)) := by
  have htne := knowledge_embeddings_ne_nil encode
  rw [find_best_answer_eq_of_ne_nil encode knowledge_base _ q htne]
  obtain ⟨hlt, -, -⟩ :=
    argmax_spec ((knowledge_embeddings encode).map
      (fun v => cosine_similarity (encode q) v))
      (fun hc => htne (by simpa using hc))
  rw [List.length_map, knowledge_embeddings_length] at hlt
  unfold resolveMatch
  by_cases hc : (0.3 : ℝ) < ((knowledge_embeddings encode).map
      (fun v => cosine_similarity (encode q) v)).getD
        (argmax ((knowledge_embeddings encode).map
          (fun v => cosine_similarity (encode q) v))) 0
  · rw [if_pos hc]
    exact ⟨_, _, rfl, Or.inl ⟨hc, _, hlt, rfl⟩⟩
  · rw [if_neg hc]
    exact ⟨_, _, rfl, Or.inr ⟨rfl, rfl⟩⟩

/-- C6 counterexample: the match step on an empty embedding table does not
return a degenerate no-entry result with score 0.0 — it fails (np.argmax
raises ValueError on an empty sequence, modelled by none) — and the build
step always constructs the fixed 10-entry knowledge base, so it has no
EmptyKnowledgeBase failure and the zero-entry case cannot arise. -/
theorem C6_empty_table_counterexample :
    matchQuery [(1 : ℝ)] ([] : List Vec) = none ∧ knowledge_base.length = 10 :=
  ⟨rfl, rfl⟩

/-- C6 (amended): load_knowledge_base unconditionally builds the non-empty
hardcoded knowledge base (so no EmptyKnowledgeBase error exists or is
needed), and match on an empty embedding table raises — modelled as none —
rather than returning an entryIndex-none match result. -/
theorem C6_empty_table (q : Vec) :
    knowledge_base ≠ [] ∧ matchQuery q [] = none :=
  ⟨by simp [knowledge_base], rfl⟩

/-- C7: for the fixed knowledge base and a fixed deterministic embedder,
query resolution is deterministic — two calls with the same question return
the same (answer, confidence) result. -/
theorem C7_deterministic (encode : String → Vec) (q : String)
    (r₁ r₂ : Option (String × ℝ))
    (h₁ : find_best_answer encode knowledge_base (knowledge_embeddings encode) q
      = r₁)
    (h₂ : find_best_answer encode knowledge_base (knowledge_embeddings encode) q
      = r₂) :
    r₁ = r₂ := h₁.symm.trans h₂

/-- Witness for C7 with the constant unit embedder. -/
theorem C7_deterministic_witness :
    find_best_answer (fun _ => ([1] : Vec)) knowledge_base
        (knowledge_embeddings (fun _ => ([1] : Vec))) "hello"
      = find_best_answer (fun _ => ([1] : Vec)) knowledge_base
        (knowledge_embeddings (fun _ => ([1] : Vec))) "hello" :=
  C7_deterministic (fun _ => ([1] : Vec)) "hello" _ _ rfl rfl

/-- C8: after every save_chat_history call the log holds at most the 50
most-recent records: the new log is a suffix of the old log with the new
record appended (oldest evicted first, retained order preserved), its length
is min (previous length + 1) 50, and the new record is its last element. -/
theorem C8_history_cap (history : List HistoryRecord) (newEntry : HistoryRecord) :
    (save_chat_history history newEntry).length ≤ 50 ∧
    (save_chat_history history newEntry).length = min (history.length + 1) 50 ∧
    List.IsSuffix (save_chat_history history newEntry) (history ++ [newEntry]) ∧
    (save_chat_history history newEntry).getLast? = some newEntry := by
  simp only [save_chat_history]
  refine ⟨?_, ?_, List.drop_suffix _ _, ?_⟩
  · rw [List.length_drop]
    omega
  · rw [List.length_drop, List.length_append, List.length_singleton]
    omega
  · have hk : (history ++ [newEntry]).length - 50 ≤ history.length := by
      rw [List.length_append, List.length_singleton]
      omega
    rw [List.drop_append_of_le_length hk, List.getLast?_concat]

/-- C9: find_best_answer only reads the global retrieval state (it never
assigns the globals), so after any number of queries the knowledge base and
embedding table equal the state right after initialization. -/
theorem C9_read_only (encode : String → Vec) (s : EngineState) (q : String)
    (qs : List String) :
    (find_best_answer_st encode s q).2 = s ∧ runQueries encode s qs = s := by
  refine ⟨rfl, ?_⟩
  induction qs with
  | nil => rfl
  | cons x t ih => simpa [runQueries, find_best_answer_st] using ih

/-- C10: an /ask request whose body is missing, lacks a question field, or
whose question is empty after trimming, returns HTTP 400 with an empty
answer and confidence 0.0, and leaves the chat history exactly as it was
(nothing is appended and the retrieval engine result is never used). -/
theorem C10_reject_empty (encode : String → Vec) (s : EngineState)
    (history : List HistoryRecord) (now : String) (data : Option (Option String))
    (h : data = none ∨ data = some none ∨
      ∃ raw, data = some (some raw) ∧ raw.trim = "") :
    ask_question encode s history now data = ((400, "", 0), history) := by
  rcases h with rfl | rfl | ⟨raw, rfl, hraw⟩
  · rfl
  · rfl
  · simp [ask_question, hraw]

/-- Witness for C10 on a request with no body. -/
theorem C10_reject_empty_witness :
    ask_question (fun _ => ([] : Vec)) ⟨[], []⟩ [] "now" none
      = ((400, "", 0), []) :=
  C10_reject_empty (fun _ => ([] : Vec)) ⟨[], []⟩ [] "now" none (Or.inl rfl)

end

end MiniChatbot
